import Mathlib

/-!
Verification of the Unity module registry controller
(`src/unity_controller.py`) against its specification.

The controller logic is embedded shallowly: each Python method becomes a
Lean function on an explicit `Registry` state; dict-shaped results become
structures with a `success` flag, an optional `error` message and optional
payload fields, mirroring exactly the keys each return site of the source
populates.  The registry manager class the controller delegates to
(`UnityModuleRegistryManager`) is not part of the sources; its primitives
are modelled from the specification and marked as such.
-/

namespace UnityMcp

/-- One cataloged module, mirroring the `UnityModule` record serialized by
`_module_to_dict` in `src/unity_controller.py` (name, type, path, has_yaml,
version, description, dependencies, assembly). -/
structure UnityModule where
  name : String
  type : String
  path : String
  has_yaml : Bool
  version : Option String
  description : Option String
  dependencies : List String
  assembly : Option String
deriving Repr, DecidableEq

/-- The in-memory registry state: catalog of modules, last-scan stamp and
project root, per spec §3 (Registry aggregate). -/
structure Registry where
  modules : List UnityModule
  last_scan : Option String
  project_root : String
deriving Repr, DecidableEq

/-- The closed category set, from `UnityController.VALID_TYPES` in
`src/unity_controller.py`. -/
def VALID_TYPES : Finset String :=
  {"core", "manager", "shared", "feature", "level", "thirdparty", "extension"}

/-- Modelled from the spec: `UnityModuleRegistryManager.get_modules` is not
under src/.  Per §4.3, `filter(type)` returns all modules of an exact type in
catalog order; with no type argument the whole catalog is returned. -/
def Registry.get_modules (reg : Registry) (module_type : Option String) :
    List UnityModule :=
  match module_type with
  | none => reg.modules
  | some t => reg.modules.filter (fun m => m.type == t)

/-- Modelled from the spec: `UnityModuleRegistryManager.get_module` is not
under src/.  Per §4.3, `get(name)` is an exact-name lookup returning absent
if not found. -/
def Registry.get_module (reg : Registry) (name : String) : Option UnityModule :=
  reg.modules.find? (fun m => m.name == name)

/-- Modelled from the spec: `UnityModuleRegistryManager.get_module_dependencies`
is not under src/.  Per §4.5, it returns the target module's `dependencies`
list verbatim. -/
def Registry.get_module_dependencies (reg : Registry) (name : String) :
    List String :=
  match reg.get_module name with
  | some m => m.dependencies
  | none => []

/-- Modelled from the spec: `UnityModuleRegistryManager.find_dependents` is
not under src/.  Per §4.5, it returns every module where the reference
appears as an exact-entry match in the module's `dependencies` list. -/
def Registry.find_dependents (reg : Registry) (ref : String) :
    List UnityModule :=
  reg.modules.filter (fun m => m.dependencies.contains ref)

/-- Sort a finite set of strings into an ascending list, as Python's
`sorted(...)` does on a set. -/
def sortedStrings (s : Finset String) : List String :=
  s.sort (fun a b => a ≤ b)

/-- Result of `list_modules`, mirroring the dict keys of its return sites. -/
structure ListModulesResult where
  success : Bool
  error : Option String := none
  count : Option Nat := none
  modules : Option (List UnityModule) := none
deriving Repr, DecidableEq

/-- Python truthiness of the `types` argument (`if types:`): `None` and the
empty list are falsy. -/
def truthy : Option (List String) → Bool
  | none => false
  | some l => !l.isEmpty

/-- The invalid requested types, `set(types) - VALID_TYPES` in the source. -/
def invalid_types_of (types : List String) : Finset String :=
  types.toFinset \ VALID_TYPES

/-- The validation error message built by `list_modules` (sorted offending
values, then the sorted valid set). -/
def invalidTypesMessage (invalid : Finset String) : String :=
  "Invalid module types: " ++ toString (sortedStrings invalid) ++
    ". Valid types: " ++ toString (sortedStrings VALID_TYPES)

/-- `UnityController.list_modules` (src/unity_controller.py lines 64-106):
validates requested types when the argument is truthy, then either reports
the invalid values or concatenates the per-type filtered lists in request
order; with a falsy argument it returns the whole catalog.  The registry
state is threaded through unchanged, as the method never mutates it. -/
def list_modules (reg : Registry) (types : Option (List String)) :
    Registry × ListModulesResult :=
  if truthy types then
    let ts := types.getD []
    let invalid := invalid_types_of ts
    if invalid = ∅ then
      let modules := ts.flatMap (fun t => reg.get_modules (some t))
      (reg, { success := true, count := some modules.length,
              modules := some modules })
    else
      (reg, { success := false,
              error := some (invalidTypesMessage invalid) })
  else
    let modules := reg.get_modules none
    (reg, { success := true, count := some modules.length,
            modules := some modules })

/-- Result of `get_module`, mirroring the dict keys of its return sites. -/
structure GetModuleResult where
  success : Bool
  error : Option String := none
  module : Option UnityModule := none
deriving Repr, DecidableEq

/-- `UnityController.get_module` (src/unity_controller.py lines 108-137):
exact lookup; on a miss it returns a `success = false` result whose error
message names the module, otherwise the module payload. -/
def get_module (reg : Registry) (name : String) : GetModuleResult :=
  match reg.get_module name with
  | none =>
    { success := false,
      error := some ("Module " ++ name ++ " not found in registry.") }
  | some m => { success := true, module := some m }

/-- Result of `get_module_dependencies`, mirroring its return-site keys. -/
structure GetDependenciesResult where
  success : Bool
  error : Option String := none
  module : Option String := none
  dependencies : Option (List String) := none
  count : Option Nat := none
deriving Repr, DecidableEq

/-- `UnityController.get_module_dependencies` (src/unity_controller.py lines
139-172): looks the module up first, reporting a not-found error result on a
miss, then returns the dependency list with its length. -/
def get_module_dependencies (reg : Registry) (name : String) :
    GetDependenciesResult :=
  match reg.get_module name with
  | none =>
    { success := false,
      error := some ("Module " ++ name ++ " not found in registry.") }
  | some _ =>
    let dependencies := reg.get_module_dependencies name
    { success := true, module := some name,
      dependencies := some dependencies,
      count := some dependencies.length }

/-- Result of `find_dependents`, mirroring its return-site keys. -/
structure FindDependentsResult where
  success : Bool
  error : Option String := none
  module : Option String := none
  dependents : Option (List UnityModule) := none
  count : Option Nat := none
deriving Repr, DecidableEq

/-- `UnityController.find_dependents` (src/unity_controller.py lines
174-199): always a success result carrying the matching modules and their
count. -/
def find_dependents (reg : Registry) (name : String) : FindDependentsResult :=
  let dependents := reg.find_dependents name
  { success := true, module := some name,
    dependents := some dependents,
    count := some dependents.length }

/-- The name-set diff computed by `refresh_registry` (src/unity_controller.py
lines 221-223): `added = new - old`, `removed = old - new`,
`unchanged = old ∩ new`. -/
def refreshDiff (old_names new_names : Finset String) :
    Finset String × Finset String × Finset String :=
  (new_names \ old_names, old_names \ new_names, old_names ∩ new_names)

/-- Modelled from the spec: `UnityModuleRegistryManager.scan_modules` is not
under src/.  Per §3 and §4.3, a scan atomically replaces the entire module
set and updates `last_scan`; the scan itself never fails (it degrades
per-module, §4.1/§6).  The freshly discovered on-disk modules and the scan
time are passed in as parameters. -/
def Registry.scan_modules (reg : Registry) (scanned : List UnityModule)
    (now : String) : Registry × List UnityModule :=
  ({ reg with modules := scanned, last_scan := some now }, scanned)

/-- Modelled from the spec: `UnityModuleRegistryManager.save_registry` is not
under src/.  Per §4.3, `persist()` fails with a `PersistenceError` on write
failure and otherwise succeeds; the failure condition is passed in as a
parameter. -/
def Registry.save_registry (persist_fails : Bool) : Except String Unit :=
  if persist_fails then Except.error "PersistenceError" else Except.ok ()

/-- The `summary` sub-dict of a successful refresh. -/
structure RefreshSummary where
  added : Nat
  removed : Nat
  unchanged : Nat
  total : Nat
deriving Repr, DecidableEq

/-- Result of `refresh_registry`, mirroring its return-site keys. -/
structure RefreshResult where
  success : Bool
  error : Option String := none
  summary : Option RefreshSummary := none
  added_modules : Option (List String) := none
  removed_modules : Option (List String) := none
  last_scan : Option String := none
deriving Repr, DecidableEq

/-- `UnityController.refresh_registry` (src/unity_controller.py lines
203-247): records the old name set, scans (which replaces the in-memory
catalog), diffs the name sets, then saves.  A save failure is caught and
returned as an error result; the already-replaced in-memory catalog is kept
either way. -/
def refresh_registry (reg : Registry) (scanned : List UnityModule)
    (now : String) (persist_fails : Bool) : Registry × RefreshResult :=
  let old_module_names := (reg.modules.map (fun m => m.name)).toFinset
  let (reg2, new_modules) := reg.scan_modules scanned now
  let new_module_names := (new_modules.map (fun m => m.name)).toFinset
  let (added, removed, unchanged) :=
    refreshDiff old_module_names new_module_names
  match Registry.save_registry persist_fails with
  | Except.error e => (reg2, { success := false, error := some e })
  | Except.ok _ =>
    (reg2,
      { success := true,
        summary := some
          { added := added.card, removed := removed.card,
            unchanged := unchanged.card, total := new_modules.length },
        added_modules := some (sortedStrings added),
        removed_modules := some (sortedStrings removed),
        last_scan := reg2.last_scan })

/-- The scan summary returned by the registry manager. -/
structure ScanSummary where
  total_modules : Nat
  last_scan : Option String
  project_root : String
deriving Repr, DecidableEq

/-- Modelled from the spec: `UnityModuleRegistryManager.get_scan_summary` is
not under src/.  Per the MCP tool description, the status carries the total
module count, the last scan time and the project path. -/
def Registry.get_scan_summary (reg : Registry) : ScanSummary :=
  { total_modules := reg.modules.length,
    last_scan := reg.last_scan,
    project_root := reg.project_root }

/-- Result of `get_registry_status`, mirroring its return-site keys. -/
structure StatusResult where
  success : Bool
  error : Option String := none
  summary : Option ScanSummary := none
deriving Repr, DecidableEq

/-- `UnityController.get_registry_status` (src/unity_controller.py lines
249-269): wraps the scan summary in a success result. -/
def get_registry_status (reg : Registry) : StatusResult :=
  { success := true, summary := some reg.get_scan_summary }

/-! ## Sample data and helper lemmas -/

/-- A concrete module used to instantiate theorems with hypotheses. -/
def sampleModule : UnityModule :=
  { name := "Audio", type := "manager", path := "Assets/_Managers/Audio",
    has_yaml := true, version := some "1.0.0", description := none,
    dependencies := ["CoreUtils"], assembly := none }

/-- A concrete registry used to instantiate theorems with hypotheses. -/
def sampleRegistry : Registry :=
  { modules := [sampleModule], last_scan := none, project_root := "." }

/-- Counting occurrences in the concatenated per-type filters: a module
occurs once per occurrence of its type in the requested list, times its
multiplicity in the catalog. -/
theorem count_flatMap_filter (mods : List UnityModule) (types : List String)
    (m : UnityModule) :
    (types.flatMap (fun t => mods.filter (fun x => x.type == t))).count m
      = types.count m.type * mods.count m := by
  induction types with
  | nil => simp
  | cons t ts ih =>
    rw [List.flatMap_cons, List.count_append, ih, List.count_cons]
    by_cases h : m.type = t
    · rw [List.count_filter (by simp [h])]
      simp [h]
      ring
    · have h0 : (mods.filter (fun x => x.type == t)).count m = 0 := by
        rw [List.count_eq_zero]
        intro hm
        have := (List.mem_filter.mp hm).2
        simp at this
        exact h this
      simp [h0, h]
      exact Or.inl fun he => h he.symm

/-! ## Theorems -/

/-- C1: for every pair of name sets compared by the refresh operation, the
added, removed and unchanged sets computed by its diff are pairwise disjoint,
their union is the union of the two input sets, and the three cardinalities
sum to the cardinality of that union; moreover the three sets are exactly
after-minus-before, before-minus-after and the intersection. -/
theorem refreshDiff_partition (old_names new_names : Finset String) :
    (refreshDiff old_names new_names).1 = new_names \ old_names ∧
    (refreshDiff old_names new_names).2.1 = old_names \ new_names ∧
    (refreshDiff old_names new_names).2.2 = old_names ∩ new_names ∧
    (refreshDiff old_names new_names).1 ∩ (refreshDiff old_names new_names).2.1 = ∅ ∧
    (refreshDiff old_names new_names).1 ∩ (refreshDiff old_names new_names).2.2 = ∅ ∧
    (refreshDiff old_names new_names).2.1 ∩ (refreshDiff old_names new_names).2.2 = ∅ ∧
    (refreshDiff old_names new_names).1 ∪ (refreshDiff old_names new_names).2.1 ∪
        (refreshDiff old_names new_names).2.2 = old_names ∪ new_names ∧
    (refreshDiff old_names new_names).1.card + (refreshDiff old_names new_names).2.1.card +
        (refreshDiff old_names new_names).2.2.card = (old_names ∪ new_names).card := by
  refine ⟨rfl, rfl, rfl, ?_, ?_, ?_, ?_, ?_⟩
  · ext x; simp [refreshDiff]; tauto
  · ext x; simp [refreshDiff]; tauto
  · ext x; simp [refreshDiff]; tauto
  · ext x; simp [refreshDiff]; tauto
  · have h1 := Finset.card_sdiff_add_card_inter old_names new_names
    have h2 := Finset.card_sdiff_add_card_inter new_names old_names
    have h3 := Finset.card_union_add_card_inter old_names new_names
    have h4 : new_names ∩ old_names = old_names ∩ new_names := Finset.inter_comm _ _
    rw [h4] at h2
    simp only [refreshDiff]
    omega

/-- C5: refreshing when the freshly scanned name set equals the stored name
set reports an empty added set, an empty removed set, and the full name set
as unchanged (so the summary counts are 0 / 0 / all, and the added and
removed module lists are empty). -/
theorem refresh_unchanged_tree (reg : Registry) (scanned : List UnityModule)
    (now : String)
    (h : (scanned.map (fun m => m.name)).toFinset
        = (reg.modules.map (fun m => m.name)).toFinset) :
    refreshDiff ((reg.modules.map (fun m => m.name)).toFinset)
        ((scanned.map (fun m => m.name)).toFinset)
      = (∅, ∅, (reg.modules.map (fun m => m.name)).toFinset) ∧
    (refresh_registry reg scanned now false).2.success = true ∧
    (refresh_registry reg scanned now false).2.summary =
      some { added := 0, removed := 0,
             unchanged := (reg.modules.map (fun m => m.name)).toFinset.card,
             total := scanned.length } ∧
    (refresh_registry reg scanned now false).2.added_modules = some [] ∧
    (refresh_registry reg scanned now false).2.removed_modules = some [] := by
  constructor
  · simp [refreshDiff, h]
  · simp [refresh_registry, refreshDiff, Registry.scan_modules,
      Registry.save_registry, h, sortedStrings, Finset.sort_empty]

/-- C3: requesting a types list containing a value outside the closed
category set makes `list_modules` fail with a validation error whose message
names exactly the offending values (the set difference with `VALID_TYPES`)
and the valid set, without touching the registry state. -/
theorem list_modules_invalid_types (reg : Registry) (types : List String)
    (h : ∃ t ∈ types, t ∉ VALID_TYPES) :
    (list_modules reg (some types)).2.success = false ∧
    (list_modules reg (some types)).2.error
      = some (invalidTypesMessage (invalid_types_of types)) ∧
    (∀ t, t ∈ invalid_types_of types ↔ (t ∈ types ∧ t ∉ VALID_TYPES)) ∧
    (list_modules reg (some types)).2.modules = none ∧
    (list_modules reg (some types)).1 = reg := by
  obtain ⟨t, ht, htv⟩ := h
  have hne : ¬types.isEmpty := by cases types <;> simp_all
  have hinv : invalid_types_of types ≠ ∅ := by
    intro he
    have hmem : t ∈ invalid_types_of types := by
      simp [invalid_types_of, ht, htv]
    rw [he] at hmem
    exact absurd hmem (Finset.not_mem_empty t)
  refine ⟨?_, ?_, ?_, ?_, ?_⟩
  · simp [list_modules, truthy, hne, hinv]
  · simp [list_modules, truthy, hne, hinv]
  · intro u
    simp [invalid_types_of]
  · simp [list_modules, truthy, hne, hinv]
  · simp [list_modules, truthy, hne, hinv]

/-- C3 witness at a concrete input. -/
theorem list_modules_invalid_types_witness :
    (list_modules sampleRegistry (some ["manager", "bogus"])).2.success = false :=
  (list_modules_invalid_types sampleRegistry ["manager", "bogus"]
    ⟨"bogus", by decide, by decide⟩).1

/-- C4: with a non-empty, all-valid types list, `list_modules` succeeds and
returns the per-type filtered lists concatenated in request order; every
returned module's type is one of the requested types, and for a singleton
request the result is exactly the filter of that type. -/
theorem list_modules_valid_types (reg : Registry) (types : List String)
    (h1 : types ≠ []) (h2 : ∀ t ∈ types, t ∈ VALID_TYPES) :
    (list_modules reg (some types)).2.success = true ∧
    (list_modules reg (some types)).2.modules
      = some (types.flatMap (fun t => reg.get_modules (some t))) ∧
    (list_modules reg (some types)).2.count
      = some (types.flatMap (fun t => reg.get_modules (some t))).length ∧
    (∀ m ∈ types.flatMap (fun t => reg.get_modules (some t)), m.type ∈ types) ∧
    (∀ t, types = [t] →
      (list_modules reg (some types)).2.modules = some (reg.get_modules (some t))) := by
  have hne : ¬types.isEmpty := by cases types <;> simp_all
  have hinv : invalid_types_of types = ∅ := by
    rw [invalid_types_of, Finset.sdiff_eq_empty_iff_subset]
    intro t ht
    rw [List.mem_toFinset] at ht
    exact h2 t ht
  refine ⟨?_, ?_, ?_, ?_, ?_⟩
  · simp [list_modules, truthy, hne, hinv]
  · simp [list_modules, truthy, hne, hinv]
  · simp [list_modules, truthy, hne, hinv]
  · intro m hm
    rw [List.mem_flatMap] at hm
    obtain ⟨t, htl, hmf⟩ := hm
    have := (List.mem_filter.mp hmf).2
    simp at this
    rw [this]
    exact htl
  · intro t ht
    subst ht
    simp [list_modules, truthy, hne, hinv, Registry.get_modules]

/-- C4 witness at a concrete input. -/
theorem list_modules_valid_types_witness :
    (list_modules sampleRegistry (some ["manager"])).2.modules
      = some (sampleRegistry.get_modules (some "manager")) :=
  (list_modules_valid_types sampleRegistry ["manager"] (by decide)
    (by decide)).2.2.2.2 "manager" rfl

/-- C9: an empty requested types list behaves exactly like passing no types
at all — validation is skipped and the full unfiltered catalog is returned
with its count. -/
theorem list_modules_empty_list_like_none (reg : Registry) :
    list_modules reg (some []) = list_modules reg none ∧
    (list_modules reg (some [])).2.success = true ∧
    (list_modules reg (some [])).2.error = none ∧
    (list_modules reg (some [])).2.modules = some reg.modules ∧
    (list_modules reg (some [])).2.count = some reg.modules.length := by
  refine ⟨rfl, ?_, ?_, ?_, ?_⟩ <;>
    simp [list_modules, truthy, Registry.get_modules]

/-- C10: a valid type occurring more than once in the request duplicates its
modules once per occurrence, and the reported count is the length of the
returned list including those duplicates. -/
theorem list_modules_duplicate_type_occurrences (reg : Registry)
    (types : List String) (h1 : types ≠ [])
    (h2 : ∀ t ∈ types, t ∈ VALID_TYPES) (m : UnityModule) :
    ∃ L, (list_modules reg (some types)).2.modules = some L ∧
      (list_modules reg (some types)).2.count = some L.length ∧
      L.count m = types.count m.type * reg.modules.count m := by
  have hne : ¬types.isEmpty := by cases types <;> simp_all
  have hinv : invalid_types_of types = ∅ := by
    rw [invalid_types_of, Finset.sdiff_eq_empty_iff_subset]
    intro t ht
    rw [List.mem_toFinset] at ht
    exact h2 t ht
  refine ⟨types.flatMap (fun t => reg.modules.filter (fun x => x.type == t)),
    ?_, ?_, ?_⟩
  · simp [list_modules, truthy, hne, hinv, Registry.get_modules]
  · simp [list_modules, truthy, hne, hinv, Registry.get_modules]
  · exact count_flatMap_filter reg.modules types m

/-- C10 witness at a concrete input with a duplicated type. -/
theorem list_modules_duplicate_type_occurrences_witness :
    ∃ L, (list_modules sampleRegistry (some ["manager", "manager"])).2.modules
        = some L ∧
      (list_modules sampleRegistry (some ["manager", "manager"])).2.count
        = some L.length ∧
      L.count sampleModule
        = (["manager", "manager"] : List String).count sampleModule.type
            * sampleRegistry.modules.count sampleModule :=
  list_modules_duplicate_type_occurrences sampleRegistry ["manager", "manager"]
    (by decide) (by decide) sampleModule

/-- C5 witness at a concrete input: scanning the same module list again. -/
theorem refresh_unchanged_tree_witness :
    (refresh_registry sampleRegistry [sampleModule] "2026-01-01" false).2.summary
      = some { added := 0, removed := 0, unchanged := 1, total := 1 } := by
  have h := (refresh_unchanged_tree sampleRegistry [sampleModule] "2026-01-01"
    (by decide)).2.2.1
  rw [h]
  decide

/-- C2 counterexample: on a miss, `get_module` and `get_module_dependencies`
return `success = false` with an error message — an error-shaped result, not
the success-shaped absent marker the claim describes. -/
theorem get_module_missing_counterexample :
    (get_module { modules := [], last_scan := none, project_root := "." }
      "Missing").success = false ∧
    ((get_module { modules := [], last_scan := none, project_root := "." }
      "Missing").error).isSome = true ∧
    (get_module_dependencies
      { modules := [], last_scan := none, project_root := "." }
      "Missing").success = false ∧
    ((get_module_dependencies
      { modules := [], last_scan := none, project_root := "." }
      "Missing").error).isSome = true := by
  decide

/-- C2 amended: for every name absent from the registry, `get_module` and
`get_module_dependencies` return a `success = false` result carrying a
not-found error message (and no payload) — a returned result, not a raised
exception. -/
theorem get_module_missing (reg : Registry) (name : String)
    (h : ∀ m ∈ reg.modules, m.name ≠ name) :
    (get_module reg name).success = false ∧
    (get_module reg name).error
      = some ("Module " ++ name ++ " not found in registry.") ∧
    (get_module reg name).module = none ∧
    (get_module_dependencies reg name).success = false ∧
    (get_module_dependencies reg name).error
      = some ("Module " ++ name ++ " not found in registry.") ∧
    (get_module_dependencies reg name).dependencies = none := by
  have hfind : reg.get_module name = none := by
    rw [Registry.get_module, List.find?_eq_none]
    intro m hm
    simp [h m hm]
  refine ⟨?_, ?_, ?_, ?_, ?_, ?_⟩ <;>
    simp [get_module, get_module_dependencies, hfind]

/-- C2 amended witness at a concrete input. -/
theorem get_module_missing_witness :
    (get_module sampleRegistry "Nonexistent").success = false :=
  (get_module_missing sampleRegistry "Nonexistent" (by decide)).1

/-- C6: `find_dependents` always succeeds, returning exactly the modules
whose dependency lists contain the reference, with the matching count; when
nothing matches — in particular when the reference is not the name of any
module — the payload is the empty list with count 0, not an error. -/
theorem find_dependents_always_success (reg : Registry) (name : String) :
    (find_dependents reg name).success = true ∧
    (find_dependents reg name).error = none ∧
    (find_dependents reg name).dependents
      = some (reg.modules.filter (fun m => m.dependencies.contains name)) ∧
    (find_dependents reg name).count
      = some (reg.modules.filter (fun m => m.dependencies.contains name)).length ∧
    ((∀ m ∈ reg.modules, ¬ m.dependencies.contains name) →
      (find_dependents reg name).dependents = some [] ∧
      (find_dependents reg name).count = some 0) := by
  refine ⟨rfl, rfl, rfl, rfl, ?_⟩
  intro h
  have hfil : reg.modules.filter (fun m => m.dependencies.contains name) = [] := by
    rw [List.filter_eq_nil_iff]
    intro m hm
    simpa using h m hm
  constructor
  · show some (reg.modules.filter (fun m => m.dependencies.contains name)) = some []
    rw [hfil]
  · show some (reg.modules.filter (fun m => m.dependencies.contains name)).length = some 0
    rw [hfil]
    rfl

/-- C6 witness at a concrete input: a reference nothing depends on and that
names no module. -/
theorem find_dependents_always_success_witness :
    (find_dependents sampleRegistry "Ghost").dependents = some [] ∧
    (find_dependents sampleRegistry "Ghost").count = some 0 :=
  (find_dependents_always_success sampleRegistry "Ghost").2.2.2.2 (by decide)

/-- C7: when persisting fails after the scan has replaced the in-memory
module set, the refresh returns an error result, while the in-memory catalog
holds the newly scanned modules and subsequent queries observe them. -/
theorem refresh_persist_failure (reg : Registry) (scanned : List UnityModule)
    (now : String) :
    (refresh_registry reg scanned now true).2.success = false ∧
    ((refresh_registry reg scanned now true).2.error).isSome = true ∧
    (refresh_registry reg scanned now true).1.modules = scanned ∧
    (list_modules (refresh_registry reg scanned now true).1 none).2.modules
      = some scanned ∧
    (get_registry_status (refresh_registry reg scanned now true).1).summary
      = some { total_modules := scanned.length, last_scan := some now,
               project_root := reg.project_root } := by
  refine ⟨?_, ?_, ?_, ?_, ?_⟩ <;>
    simp [refresh_registry, Registry.scan_modules, Registry.save_registry,
      list_modules, truthy, Registry.get_modules, get_registry_status,
      Registry.get_scan_summary]

/-- C8: every controller operation, on every input, yields a result with a
boolean `success` flag whose `error` message is present exactly when
`success` is false; each operation is a total function into its result type,
so no exception reaches the caller — failures of the modelled fallible
registry primitive (persistence) are translated into `success = false`
results. -/
theorem controller_uniform_result_shape :
    (∀ reg types, ((list_modules reg types).2.error).isSome
        = !(list_modules reg types).2.success) ∧
    (∀ reg name, ((get_module reg name).error).isSome
        = !(get_module reg name).success) ∧
    (∀ reg name, ((get_module_dependencies reg name).error).isSome
        = !(get_module_dependencies reg name).success) ∧
    (∀ reg name, ((find_dependents reg name).error).isSome
        = !(find_dependents reg name).success) ∧
    (∀ reg scanned now persist_fails,
      ((refresh_registry reg scanned now persist_fails).2.error).isSome
        = !(refresh_registry reg scanned now persist_fails).2.success) ∧
    (∀ reg, ((get_registry_status reg).error).isSome
        = !(get_registry_status reg).success) := by
  refine ⟨?_, ?_, ?_, ?_, ?_, ?_⟩
  · intro reg types
    rw [list_modules]
    by_cases ht : truthy types = true
    · simp [ht]
      split <;> simp
    · simp [ht]
  · intro reg name
    rw [get_module]
    cases reg.get_module name <;> simp
  · intro reg name
    rw [get_module_dependencies]
    cases reg.get_module name <;> simp
  · intro reg name
    simp [find_dependents]
  · intro reg scanned now persist_fails
    rw [refresh_registry]
    cases persist_fails <;> simp [Registry.scan_modules, Registry.save_registry]
  · intro reg
    simp [get_registry_status]

end UnityMcp
